import Mathlib

/-!
Shallow embedding of the buckpal money-transfer application (Rust) in Lean 4.

Conventions of the embedding:
* `num_bigint::BigInt` is embedded as `Int` (both are arbitrary-precision
  signed integers); `i64`/`i128` identifiers are embedded as `Int` values
  (they are only compared, never subjected to wrapping arithmetic).
* `chrono::NaiveDateTime` is embedded as `Int` (a totally ordered instant).
* Rust code that can panic (`unwrap`, explicit `panic!`) is embedded with
  `Option`: `none` models the panic.
* The use case's I/O collaborators (load port, account lock, update port)
  are embedded as an explicit event trace: `send_money` returns the list of
  port invocations it performed together with its outcome.
-/

set_option autoImplicit false

namespace Buckpal

/-- `chrono::NaiveDateTime`: an opaque totally ordered instant. -/
abbrev Timestamp := Int

/-! ## domain/src/vo/money.rs -/

/-- `Money` wraps a `num_bigint::BigInt` amount (embedded as `Int`). -/
structure Money where
  amount : Int
deriving DecidableEq

/-- `Money::of(value: i128)`. -/
def Money.of (value : Int) : Money := ⟨value⟩

/-- `Money::add(a, b)`. -/
def Money.add (a b : Money) : Money := ⟨a.amount + b.amount⟩

/-- `Money::substract(a, b)` (sic, source spelling). -/
def Money.substract (a b : Money) : Money := ⟨a.amount - b.amount⟩

/-- `Money::is_positive_or_zero`. -/
def Money.is_positive_or_zero (m : Money) : Bool := 0 ≤ m.amount

/-- `Money::is_negative`. -/
def Money.is_negative (m : Money) : Bool := m.amount < 0

/-- `Money::is_positive`. -/
def Money.is_positive (m : Money) : Bool := 0 < m.amount

/-- `Money::is_greater_than_or_equal_to`. -/
def Money.is_greater_than_or_equal_to (m other : Money) : Bool :=
  other.amount ≤ m.amount

/-- `Money::is_greater_than`. -/
def Money.is_greater_than (m other : Money) : Bool := other.amount < m.amount

/-- `Money::minus`. -/
def Money.minus (m other : Money) : Money := ⟨m.amount - other.amount⟩

/-- `Money::plus`. -/
def Money.plus (m other : Money) : Money := ⟨m.amount + other.amount⟩

/-- `Money::negate`. -/
def Money.negate (m : Money) : Money := ⟨-m.amount⟩

/-! ## domain/src/ar/account.rs, domain/src/ar/activity.rs : identifiers -/

/-- `AccountId(pub i64)`. -/
structure AccountId where
  val : Int
deriving DecidableEq

/-- `ActivityId(pub i64)`. -/
structure ActivityId where
  val : Int
deriving DecidableEq

/-! ## domain/src/ar/activity.rs -/

/-- A money transfer activity between accounts. -/
structure Activity where
  id : Option ActivityId
  owner_account_id : AccountId
  source_account_id : AccountId
  target_account_id : AccountId
  timestamp : Timestamp
  money : Money
deriving DecidableEq

/-- `Activity::new` — constructs an activity with `id = None` (dirty). -/
def Activity.new (owner_account_id source_account_id target_account_id : AccountId)
    (timestamp : Timestamp) (money : Money) : Activity :=
  { id := none
    owner_account_id := owner_account_id
    source_account_id := source_account_id
    target_account_id := target_account_id
    timestamp := timestamp
    money := money }

/-- `Activity::with_id`. -/
def Activity.mk_with_id (id : Option ActivityId)
    (owner_account_id source_account_id target_account_id : AccountId)
    (timestamp : Timestamp) (money : Money) : Activity :=
  { id := id
    owner_account_id := owner_account_id
    source_account_id := source_account_id
    target_account_id := target_account_id
    timestamp := timestamp
    money := money }

/-! ## domain/src/vo/activity_window.rs -/

/-- A window of account activities. -/
structure ActivityWindow where
  activities : List Activity
deriving DecidableEq

/-- `ActivityWindow::new(activities)`. -/
def ActivityWindow.new (activities : List Activity) : ActivityWindow :=
  ⟨activities⟩

/-- `get_start_timestamp`: `self.activities.iter().map(|a| a.timestamp).min().unwrap()`.
`none` models the `unwrap` panic on an empty window. -/
def ActivityWindow.get_start_timestamp (w : ActivityWindow) : Option Timestamp :=
  match w.activities.map (fun a => a.timestamp) with
  | [] => none
  | t :: ts => some (ts.foldl min t)

/-- `get_end_timestamp`: `self.activities.iter().map(|a| a.timestamp).max().unwrap()`.
`none` models the `unwrap` panic on an empty window. -/
def ActivityWindow.get_end_timestamp (w : ActivityWindow) : Option Timestamp :=
  match w.activities.map (fun a => a.timestamp) with
  | [] => none
  | t :: ts => some (ts.foldl max t)

/-- `calculate_balance`: deposits to `account_id` plus the negated
withdrawals from `account_id`, each folded up with `Money::add` from
`Money::of(0)`. -/
def ActivityWindow.calculate_balance (w : ActivityWindow) (account_id : AccountId) : Money :=
  let deposit_balance :=
    ((w.activities.filter (fun a => a.target_account_id = account_id)).map
      (fun a => a.money)).foldl (fun acc money => Money.add acc money) (Money.of 0)
  let withdrawal_balance :=
    ((w.activities.filter (fun a => a.source_account_id = account_id)).map
      (fun a => a.money)).foldl (fun acc money => Money.add acc money) (Money.of 0)
  Money.add deposit_balance withdrawal_balance.negate

/-- `add_activity` pushes onto the end of the activities vector. -/
def ActivityWindow.add_activity (w : ActivityWindow) (activity : Activity) : ActivityWindow :=
  ⟨w.activities ++ [activity]⟩

/-! ## domain/src/ar/account.rs -/

/-- `AccountImpl`: id, baseline balance and the recent-activity window. -/
structure AccountImpl where
  id : Option AccountId
  baseline_balance : Money
  activity_window : ActivityWindow
deriving DecidableEq

/-- `calculate_balance`: `baseline_balance + activity_window.calculate_balance(id.unwrap())`;
`none` models the panic when `id` is `None`. -/
def AccountImpl.calculate_balance (a : AccountImpl) : Option Money :=
  a.id.map (fun i => Money.add a.baseline_balance (a.activity_window.calculate_balance i))

/-- `may_withdraw`: `(calculate_balance() + (-money)).is_positive_or_zero()`;
`none` models the panic when `id` is `None`. -/
def AccountImpl.may_withdraw (a : AccountImpl) (money : Money) : Option Bool :=
  a.calculate_balance.map (fun bal => (Money.add bal money.negate).is_positive_or_zero)

/-- `withdraw(money, target_account_id)`.  The wall-clock `Local::now()` used
for the new activity's timestamp is passed in as `now`.  Returns the success
flag together with the updated account; `none` models an `unwrap` panic. -/
def AccountImpl.withdraw (a : AccountImpl) (money : Money) (target_account_id : AccountId)
    (now : Timestamp) : Option (Bool × AccountImpl) :=
  match a.may_withdraw money with
  | none => none
  | some false => some (false, a)
  | some true =>
    match a.id with
    | none => none
    | some i =>
      let withdrawal := Activity.new i i target_account_id now money
      some (true, { a with activity_window := a.activity_window.add_activity withdrawal })

/-- `deposit(money, source_account_id)`; `none` models the `unwrap` panic when
`id` is `None`. -/
def AccountImpl.deposit (a : AccountImpl) (money : Money) (source_account_id : AccountId)
    (now : Timestamp) : Option (Bool × AccountImpl) :=
  match a.id with
  | none => none
  | some i =>
    let dep := Activity.new i source_account_id i now money
    some (true, { a with activity_window := a.activity_window.add_activity dep })

/-! ## application/src/inbound_ports.rs -/

/-- `SendMoneyCommand`. -/
structure SendMoneyCommand where
  source_account_id : AccountId
  target_account_id : AccountId
  money : Money
deriving DecidableEq

/-! ## application/src/send_money_use_case.rs -/

/-- `MoneyTransferProperties`. -/
structure MoneyTransferProperties where
  maximum_transfer_threshold : Money
deriving DecidableEq

/-- `MoneyTransferProperties::new` — defaults to `Money::of(1_000_000)`. -/
def MoneyTransferProperties.new (threshold : Option Money) : MoneyTransferProperties :=
  ⟨threshold.getD (Money.of 1000000)⟩

/-- `check_threshold`: `true` means the code raises the
"Threshold Exceeded Exception" panic. -/
def check_threshold (props : MoneyTransferProperties) (command : SendMoneyCommand) : Bool :=
  command.money.is_greater_than props.maximum_transfer_threshold

/-- One invocation of an outbound port made by the use case, in order:
loading an account, locking, releasing, or persisting an account's
activities. -/
inductive UseCaseEvent where
  | load_account (id : AccountId) (baseline_date : Timestamp)
  | lock_account (id : AccountId)
  | release_account (id : AccountId)
  | update_activities (account : AccountImpl)
deriving DecidableEq

/-- `SendMoneyUseCaseImpl::send_money`.  The load port is passed in as the
function `load_account` (`none` models its `EntityNotFoundException` panic);
`now` stands for `Local::now().naive_local()` and the baseline date is
`now` minus ten days (time is measured in days here).  The result is the
ordered trace of port invocations together with the outcome: `none` models a
panic, `some (b, source, target)` a normal return of `b` with the final
in-memory states of the two accounts. -/
def SendMoneyUseCaseImpl.send_money
    (load_account : AccountId → Timestamp → Option AccountImpl)
    (props : MoneyTransferProperties) (command : SendMoneyCommand) (now : Timestamp) :
    List UseCaseEvent × Option (Bool × AccountImpl × AccountImpl) :=
  if check_threshold props command then ([], none)
  else
    let baseline_date := now - 10
    match load_account command.source_account_id baseline_date with
    | none => ([UseCaseEvent.load_account command.source_account_id baseline_date], none)
    | some source_account =>
      match load_account command.target_account_id baseline_date with
      | none =>
        ([UseCaseEvent.load_account command.source_account_id baseline_date,
          UseCaseEvent.load_account command.target_account_id baseline_date], none)
      | some target_account =>
        match source_account.id with
        | none =>
          ([UseCaseEvent.load_account command.source_account_id baseline_date,
            UseCaseEvent.load_account command.target_account_id baseline_date], none)
        | some source_account_id =>
          match target_account.id with
          | none =>
            ([UseCaseEvent.load_account command.source_account_id baseline_date,
              UseCaseEvent.load_account command.target_account_id baseline_date], none)
          | some target_account_id =>
            match source_account.withdraw command.money target_account_id now with
            | none =>
              ([UseCaseEvent.load_account command.source_account_id baseline_date,
                UseCaseEvent.load_account command.target_account_id baseline_date,
                UseCaseEvent.lock_account source_account_id], none)
            | some (false, source_account2) =>
              ([UseCaseEvent.load_account command.source_account_id baseline_date,
                UseCaseEvent.load_account command.target_account_id baseline_date,
                UseCaseEvent.lock_account source_account_id,
                UseCaseEvent.release_account source_account_id],
               some (false, source_account2, target_account))
            | some (true, source_account2) =>
              match target_account.deposit command.money source_account_id now with
              | none =>
                ([UseCaseEvent.load_account command.source_account_id baseline_date,
                  UseCaseEvent.load_account command.target_account_id baseline_date,
                  UseCaseEvent.lock_account source_account_id,
                  UseCaseEvent.lock_account target_account_id], none)
              | some (false, target_account2) =>
                ([UseCaseEvent.load_account command.source_account_id baseline_date,
                  UseCaseEvent.load_account command.target_account_id baseline_date,
                  UseCaseEvent.lock_account source_account_id,
                  UseCaseEvent.lock_account target_account_id,
                  UseCaseEvent.release_account source_account_id,
                  UseCaseEvent.release_account target_account_id],
                 some (false, source_account2, target_account2))
              | some (true, target_account2) =>
                ([UseCaseEvent.load_account command.source_account_id baseline_date,
                  UseCaseEvent.load_account command.target_account_id baseline_date,
                  UseCaseEvent.lock_account source_account_id,
                  UseCaseEvent.lock_account target_account_id,
                  UseCaseEvent.update_activities source_account2,
                  UseCaseEvent.update_activities target_account2,
                  UseCaseEvent.release_account source_account_id,
                  UseCaseEvent.release_account target_account_id],
                 some (true, source_account2, target_account2))

/-! ## adapters-outbound/persistence: entities and account_mapper.rs -/

/-- `ActivityEntity` — the relational row; `amount` is an `i64` column. -/
structure ActivityEntity where
  id : Option Int
  timestamp : Timestamp
  owner_account_id : Int
  source_account_id : Int
  target_account_id : Int
  amount : Int
deriving DecidableEq

/-- Wrapping conversion of an arbitrary integer to the `i64` range, the
semantics of Rust's `as i64` cast from `i128`. -/
def wrap_to_i64 (n : Int) : Int := (n + 2 ^ 63) % 2 ^ 64 - 2 ^ 63

/-- `map_to_activity_entity`: the amount travels through
`activity.money.amount.to_string().parse::<i128>().unwrap() as i64` — the
parse panics outside the `i128` range (modelled by `none`), and the `as i64`
cast wraps. -/
def map_to_activity_entity (activity : Activity) : Option ActivityEntity :=
  if -(2 ^ 127) ≤ activity.money.amount ∧ activity.money.amount < 2 ^ 127 then
    some
      { id := activity.id.map (fun aid => aid.val)
        timestamp := activity.timestamp
        owner_account_id := activity.owner_account_id.val
        source_account_id := activity.source_account_id.val
        target_account_id := activity.target_account_id.val
        amount := wrap_to_i64 activity.money.amount }
  else none

/-! ## adapters-outbound/persistence/src/account_persistence_adapter.rs -/

/-- The loop body of `update_activities`: walk the window in order, and for
every activity whose `id` is `None` call
`activity_repository.save(map_to_activity_entity(activity))`.  The returned
list is the ordered sequence of saved entities; `none` models a panic inside
`map_to_activity_entity`. -/
def save_new_activities : List Activity → Option (List ActivityEntity)
  | [] => some []
  | activity :: rest =>
    if activity.id.isNone then
      match map_to_activity_entity activity with
      | none => none
      | some entity =>
        match save_new_activities rest with
        | none => none
        | some entities => some (entity :: entities)
    else save_new_activities rest

/-- `AccountPersistenceAdapter::update_activities(account)` — returns the
ordered sequence of `ActivityEntity` rows passed to
`activity_repository.save`. -/
def update_activities (account : AccountImpl) : Option (List ActivityEntity) :=
  save_new_activities account.activity_window.activities

/-! ## adapters-inbound/rest/src/send_money_handler.rs -/

/-- The REST handler: builds the command from the three parsed path
parameters, invokes the use case, ignores its boolean result and sets status
`200 OK`.  The use case is passed in as a function, as it reaches the handler
through a trait object. -/
def send_money_handler (send_money_use_case : SendMoneyCommand → Bool)
    (sourceAccountId targetAccountId amount : Int) : Nat :=
  let command : SendMoneyCommand :=
    { source_account_id := ⟨sourceAccountId⟩
      target_account_id := ⟨targetAccountId⟩
      money := Money.of amount }
  let _result := send_money_use_case command
  200

/-! ## Concrete instances used to exercise the definitions -/

/-- Two persisted deposit activities crediting account 1 (the repo's own
test data: 999 and 1 on top of a 555 baseline). -/
def acct555 : AccountImpl :=
  { id := some ⟨1⟩
    baseline_balance := Money.of 555
    activity_window := ActivityWindow.new
      [Activity.mk_with_id (some ⟨5⟩) ⟨1⟩ ⟨2⟩ ⟨1⟩ 1 (Money.of 999),
       Activity.mk_with_id (some ⟨6⟩) ⟨1⟩ ⟨2⟩ ⟨1⟩ 2 (Money.of 1)] }

/-- A window with two activities at instants 5 and 3. -/
def w9 : ActivityWindow :=
  ActivityWindow.new
    [Activity.new ⟨1⟩ ⟨1⟩ ⟨2⟩ 5 (Money.of 7),
     Activity.new ⟨1⟩ ⟨2⟩ ⟨1⟩ 3 (Money.of 4)]

/-- Default transfer properties (threshold `Money::of(1_000_000)`). -/
def props0 : MoneyTransferProperties := MoneyTransferProperties.new none

/-- Source account for the failing-transfer scenario: balance 10. -/
def src5 : AccountImpl :=
  { id := some ⟨1⟩, baseline_balance := Money.of 10
    activity_window := ActivityWindow.new [] }

/-- Target account for the failing-transfer scenario. -/
def tgt5 : AccountImpl :=
  { id := some ⟨2⟩, baseline_balance := Money.of 0
    activity_window := ActivityWindow.new [] }

/-- Load port returning `src5` for id 1 and `tgt5` for id 2. -/
def lf5 : AccountId → Timestamp → Option AccountImpl := fun i _ =>
  if i = ⟨1⟩ then some src5 else if i = ⟨2⟩ then some tgt5 else none

/-- Transfer 50 from account 1 to account 2 (more than `src5` holds). -/
def cmd5 : SendMoneyCommand :=
  { source_account_id := ⟨1⟩, target_account_id := ⟨2⟩, money := Money.of 50 }

/-- Source account for the successful-transfer scenario: balance 100. -/
def acct1 : AccountImpl :=
  { id := some ⟨1⟩, baseline_balance := Money.of 100
    activity_window := ActivityWindow.new [] }

/-- Target account for the successful-transfer scenario. -/
def acct2 : AccountImpl :=
  { id := some ⟨2⟩, baseline_balance := Money.of 0
    activity_window := ActivityWindow.new [] }

/-- Load port returning `acct1` for id 1 and `acct2` for id 2. -/
def lf1 : AccountId → Timestamp → Option AccountImpl := fun i _ =>
  if i = ⟨1⟩ then some acct1 else if i = ⟨2⟩ then some acct2 else none

/-- Transfer 50 from account 1 to account 2. -/
def cmd1 : SendMoneyCommand :=
  { source_account_id := ⟨1⟩, target_account_id := ⟨2⟩, money := Money.of 50 }

/-- A self-transfer command: source and target are both account 1. -/
def cmdSelf : SendMoneyCommand :=
  { source_account_id := ⟨1⟩, target_account_id := ⟨1⟩, money := Money.of 50 }

/-- `acct1` after its withdrawal of 50 towards account 2 at instant 9. -/
def acct1_after : AccountImpl :=
  { id := some ⟨1⟩, baseline_balance := Money.of 100
    activity_window := ActivityWindow.new [Activity.new ⟨1⟩ ⟨1⟩ ⟨2⟩ 9 (Money.of 50)] }

/-- `acct2` after its deposit of 50 from account 1 at instant 9. -/
def acct2_after : AccountImpl :=
  { id := some ⟨2⟩, baseline_balance := Money.of 0
    activity_window := ActivityWindow.new [Activity.new ⟨2⟩ ⟨1⟩ ⟨2⟩ 9 (Money.of 50)] }

/-- `acct1` after a 50-unit self-transfer activity at instant 9 (both the
withdrawal and the deposit produce this same state). -/
def acctSelf_after : AccountImpl :=
  { id := some ⟨1⟩, baseline_balance := Money.of 100
    activity_window := ActivityWindow.new [Activity.new ⟨1⟩ ⟨1⟩ ⟨1⟩ 9 (Money.of 50)] }

/-- An unpersisted activity whose amount does not fit in 64 bits. -/
def act_big : Activity := Activity.new ⟨1⟩ ⟨1⟩ ⟨2⟩ 0 (Money.of (2 ^ 63))

/-- An unpersisted activity with a small amount. -/
def act_small : Activity := Activity.new ⟨1⟩ ⟨1⟩ ⟨2⟩ 0 (Money.of 42)

/-- A load port with no accounts at all. -/
def lf_none : AccountId → Timestamp → Option AccountImpl := fun _ _ => none

/-- Properties with a transfer threshold of 100. -/
def props100 : MoneyTransferProperties := ⟨Money.of 100⟩

/-- A command whose money (200) exceeds the threshold of 100. -/
def cmd_over : SendMoneyCommand :=
  { source_account_id := ⟨1⟩, target_account_id := ⟨2⟩, money := Money.of 200 }

/-- A command whose money (50) is below the threshold of 100. -/
def cmd_under : SendMoneyCommand :=
  { source_account_id := ⟨1⟩, target_account_id := ⟨2⟩, money := Money.of 50 }

/-! ## Helper lemmas -/

theorem Money.ext_amount {a b : Money} (h : a.amount = b.amount) : a = b := by
  cases a; cases b; simpa using h

theorem money_add_amount (a b : Money) : (Money.add a b).amount = a.amount + b.amount := rfl

theorem money_negate_amount (m : Money) : m.negate.amount = -m.amount := rfl

theorem foldl_money_add_amount (l : List Money) (init : Money) :
    (l.foldl (fun acc money => Money.add acc money) init).amount =
      init.amount + (l.map Money.amount).sum := by
  induction l generalizing init with
  | nil => simp
  | cons m ms ih =>
    rw [List.foldl_cons, ih, List.map_cons, List.sum_cons, money_add_amount]
    ring

/-- The window balance, written as an integer: deposits minus withdrawals. -/
theorem calculate_balance_amount (w : ActivityWindow) (account_id : AccountId) :
    (w.calculate_balance account_id).amount =
      ((w.activities.filter (fun a => a.target_account_id = account_id)).map
        (fun a => a.money.amount)).sum -
      ((w.activities.filter (fun a => a.source_account_id = account_id)).map
        (fun a => a.money.amount)).sum := by
  simp only [ActivityWindow.calculate_balance]
  rw [money_add_amount, money_negate_amount, foldl_money_add_amount, foldl_money_add_amount]
  simp only [Money.of, List.map_map]
  have h1 : (Money.amount ∘ fun a => a.money) = fun (a : Activity) => a.money.amount := rfl
  rw [h1]
  ring

/-- Appending one activity shifts the window balance by the activity's
amount, credited when the account is its target and debited when the account
is its source. -/
theorem calculate_balance_add_activity (w : ActivityWindow) (x : Activity)
    (account_id : AccountId) :
    ((w.add_activity x).calculate_balance account_id).amount =
      (w.calculate_balance account_id).amount +
        (if x.target_account_id = account_id then x.money.amount else 0) -
        (if x.source_account_id = account_id then x.money.amount else 0) := by
  simp only [calculate_balance_amount, ActivityWindow.add_activity,
    List.filter_append, List.map_append, List.sum_append]
  by_cases h1 : x.target_account_id = account_id <;>
    by_cases h2 : x.source_account_id = account_id <;>
    simp [h1, h2] <;> ring

theorem foldl_min_spec (t : Timestamp) (ts : List Timestamp) :
    ts.foldl min t ∈ t :: ts ∧ ∀ x ∈ t :: ts, ts.foldl min t ≤ x := by
  induction ts generalizing t with
  | nil => simp
  | cons a as ih =>
    obtain ⟨hmem, hle⟩ := ih (min t a)
    rw [List.mem_cons] at hmem
    constructor
    · simp only [List.foldl_cons, List.mem_cons]
      rcases hmem with h | h
      · rcases min_choice t a with hc | hc
        · exact Or.inl (h.trans hc)
        · exact Or.inr (Or.inl (h.trans hc))
      · exact Or.inr (Or.inr h)
    · intro x hx
      simp only [List.mem_cons] at hx
      rcases hx with rfl | rfl | hx
      · exact le_trans (hle _ (List.mem_cons_self _ _)) (min_le_left _ _)
      · exact le_trans (hle _ (List.mem_cons_self _ _)) (min_le_right _ _)
      · exact hle _ (List.mem_cons_of_mem _ hx)

theorem foldl_max_spec (t : Timestamp) (ts : List Timestamp) :
    ts.foldl max t ∈ t :: ts ∧ ∀ x ∈ t :: ts, x ≤ ts.foldl max t := by
  induction ts generalizing t with
  | nil => simp
  | cons a as ih =>
    obtain ⟨hmem, hle⟩ := ih (max t a)
    rw [List.mem_cons] at hmem
    constructor
    · simp only [List.foldl_cons, List.mem_cons]
      rcases hmem with h | h
      · rcases max_choice t a with hc | hc
        · exact Or.inl (h.trans hc)
        · exact Or.inr (Or.inl (h.trans hc))
      · exact Or.inr (Or.inr h)
    · intro x hx
      simp only [List.mem_cons] at hx
      rcases hx with rfl | rfl | hx
      · exact le_trans (le_max_left _ _) (hle _ (List.mem_cons_self _ _))
      · exact le_trans (le_max_right _ _) (hle _ (List.mem_cons_self _ _))
      · exact hle _ (List.mem_cons_of_mem _ hx)

/-! ## Claim theorems -/

/-- C2: for every activity window and account id, `calculate_balance`
equals the sum of the money of the activities targeting the account minus
the sum of the money of the activities sourced at the account; when no
activity matches (in particular on the empty window) it returns
`Money.of 0` and does not fail. -/
theorem claim_C2_window_balance (w : ActivityWindow) (account_id : AccountId) :
    w.calculate_balance account_id =
      Money.substract
        (Money.of (((w.activities.filter (fun a => a.target_account_id = account_id)).map
          (fun a => a.money.amount)).sum))
        (Money.of (((w.activities.filter (fun a => a.source_account_id = account_id)).map
          (fun a => a.money.amount)).sum)) ∧
    ((w.activities.filter (fun a => a.target_account_id = account_id)) = [] →
      (w.activities.filter (fun a => a.source_account_id = account_id)) = [] →
      w.calculate_balance account_id = Money.of 0) := by
  constructor
  · apply Money.ext_amount
    rw [calculate_balance_amount]
    rfl
  · intro h1 h2
    apply Money.ext_amount
    rw [calculate_balance_amount, h1, h2]
    rfl

/-- Witness for C2 at the empty window and account 1. -/
theorem claim_C2_witness :
    ((ActivityWindow.new []).activities.filter
      (fun a => a.target_account_id = AccountId.mk 1)) = [] ∧
    ((ActivityWindow.new []).activities.filter
      (fun a => a.source_account_id = AccountId.mk 1)) = [] ∧
    (ActivityWindow.new []).calculate_balance (AccountId.mk 1) = Money.of 0 :=
  ⟨rfl, rfl, (claim_C2_window_balance (ActivityWindow.new []) (AccountId.mk 1)).2 rfl rfl⟩

/-- C9: on a non-empty window, `get_start_timestamp` returns the minimum
activity timestamp and `get_end_timestamp` the maximum (the failure branch
is not taken); on an empty window both fail (modelled by `none`). -/
theorem claim_C9_window_timestamps (w : ActivityWindow) :
    (w.activities ≠ [] →
      ∃ s e, w.get_start_timestamp = some s ∧ w.get_end_timestamp = some e ∧
        s ∈ w.activities.map (fun a => a.timestamp) ∧
        e ∈ w.activities.map (fun a => a.timestamp) ∧
        ∀ a ∈ w.activities, s ≤ a.timestamp ∧ a.timestamp ≤ e) ∧
    (w.activities = [] →
      w.get_start_timestamp = none ∧ w.get_end_timestamp = none) := by
  cases hw : w.activities with
  | nil =>
    refine ⟨fun h => absurd rfl h, fun _ => ?_⟩
    constructor <;>
      simp [ActivityWindow.get_start_timestamp, ActivityWindow.get_end_timestamp, hw]
  | cons a as =>
    refine ⟨fun _ => ?_, fun h => absurd h (by simp)⟩
    obtain ⟨hmin_mem, hmin_le⟩ := foldl_min_spec a.timestamp (as.map (fun x => x.timestamp))
    obtain ⟨hmax_mem, hmax_le⟩ := foldl_max_spec a.timestamp (as.map (fun x => x.timestamp))
    refine ⟨(as.map (fun x => x.timestamp)).foldl min a.timestamp,
      (as.map (fun x => x.timestamp)).foldl max a.timestamp, ?_, ?_, ?_, ?_, ?_⟩
    · simp [ActivityWindow.get_start_timestamp, hw]
    · simp [ActivityWindow.get_end_timestamp, hw]
    · simpa [hw] using hmin_mem
    · simpa [hw] using hmax_mem
    · intro x hx
      exact ⟨hmin_le _ (List.mem_map_of_mem _ hx), hmax_le _ (List.mem_map_of_mem _ hx)⟩

/-- Witness for C9 at a two-activity window (timestamps 5 and 3) and at the
empty window. -/
theorem claim_C9_witness :
    (w9.activities ≠ [] ∧
      ∃ s e, w9.get_start_timestamp = some s ∧ w9.get_end_timestamp = some e ∧
        s ∈ w9.activities.map (fun a => a.timestamp) ∧
        e ∈ w9.activities.map (fun a => a.timestamp) ∧
        ∀ a ∈ w9.activities, s ≤ a.timestamp ∧ a.timestamp ≤ e) ∧
    ((ActivityWindow.new []).get_start_timestamp = none ∧
      (ActivityWindow.new []).get_end_timestamp = none) :=
  ⟨⟨by decide, (claim_C9_window_timestamps w9).1 (by decide)⟩,
   (claim_C9_window_timestamps (ActivityWindow.new [])).2 rfl⟩

/-- C3: on an account whose id is set, `withdraw` succeeds exactly when the
balance minus the money is at least zero, and on success appends exactly one
new unpersisted activity (owner and source the account's own id, target the
given id, carrying the given money); on failure it returns the account
unchanged.  `deposit` always succeeds and appends exactly one new
unpersisted activity (owner and target the account's own id, source the
given id). -/
theorem claim_C3_withdraw_deposit (a : AccountImpl) (money : Money)
    (target_account_id source_account_id : AccountId) (now : Timestamp)
    (i : AccountId) (bal : Money)
    (hid : a.id = some i) (hbal : a.calculate_balance = some bal) :
    (0 ≤ (Money.substract bal money).amount →
      a.withdraw money target_account_id now =
        some (true, { a with activity_window :=
          a.activity_window.add_activity (Activity.new i i target_account_id now money) })) ∧
    ((Money.substract bal money).amount < 0 →
      a.withdraw money target_account_id now = some (false, a)) ∧
    a.deposit money source_account_id now =
      some (true, { a with activity_window :=
        a.activity_window.add_activity (Activity.new i source_account_id i now money) }) := by
  have hmw : a.may_withdraw money =
      some ((Money.add bal money.negate).is_positive_or_zero) := by
    simp [AccountImpl.may_withdraw, hbal]
  refine ⟨?_, ?_, ?_⟩
  · intro h
    have hb : (Money.add bal money.negate).is_positive_or_zero = true := by
      simp only [Money.add, Money.negate, Money.is_positive_or_zero, Money.substract] at h ⊢
      simp only [decide_eq_true_eq]
      omega
    simp [AccountImpl.withdraw, hmw, hb, hid]
  · intro h
    have hb : (Money.add bal money.negate).is_positive_or_zero = false := by
      simp only [Money.add, Money.negate, Money.is_positive_or_zero, Money.substract] at h ⊢
      simp only [decide_eq_false_iff_not]
      omega
    simp [AccountImpl.withdraw, hmw, hb]
  · simp [AccountImpl.deposit, hid]

/-- Witness for C3 on the repo's 555-baseline account with balance 1555:
withdrawing 555 succeeds and appends the expected activity, and depositing
445 appends the expected activity. -/
theorem claim_C3_witness :
    acct555.withdraw (Money.of 555) (AccountId.mk 99) 7 =
      some (true, { acct555 with activity_window :=
        acct555.activity_window.add_activity (Activity.new ⟨1⟩ ⟨1⟩ ⟨99⟩ 7 (Money.of 555)) }) ∧
    acct555.deposit (Money.of 445) (AccountId.mk 99) 7 =
      some (true, { acct555 with activity_window :=
        acct555.activity_window.add_activity (Activity.new ⟨1⟩ ⟨99⟩ ⟨1⟩ 7 (Money.of 445)) }) :=
  ⟨(claim_C3_withdraw_deposit acct555 (Money.of 555) ⟨99⟩ ⟨99⟩ 7 ⟨1⟩ (Money.of 1555)
      rfl (by decide)).1 (by decide),
   (claim_C3_withdraw_deposit acct555 (Money.of 445) ⟨99⟩ ⟨99⟩ 7 ⟨1⟩ (Money.of 1555)
      rfl (by decide)).2.2⟩

/-- C4: withdraw is atomic — when it returns `false` the account is
completely unchanged: same activity window (contents and length), same
baseline balance, same id. -/
theorem claim_C4_withdraw_atomic (a : AccountImpl) (money : Money)
    (target_account_id : AccountId) (now : Timestamp) (i : AccountId)
    (hid : a.id = some i) (a2 : AccountImpl)
    (hw : a.withdraw money target_account_id now = some (false, a2)) :
    a2 = a ∧ a2.activity_window = a.activity_window ∧
    a2.activity_window.activities = a.activity_window.activities ∧
    a2.activity_window.activities.length = a.activity_window.activities.length ∧
    a2.baseline_balance = a.baseline_balance ∧ a2.id = a.id := by
  have ha : a2 = a := by
    unfold AccountImpl.withdraw at hw
    cases hmw : a.may_withdraw money with
    | none => rw [hmw] at hw; exact absurd hw (by simp)
    | some b =>
      rw [hmw] at hw
      cases b with
      | false =>
        simp only [Option.some.injEq, Prod.mk.injEq] at hw
        exact hw.2.symm
      | true =>
        rw [hid] at hw
        simp only [Option.some.injEq, Prod.mk.injEq] at hw
        exact absurd hw.1 (by simp)
  subst ha
  exact ⟨rfl, rfl, rfl, rfl, rfl, rfl⟩

/-- Witness for C4: withdrawing 1556 from the balance-1555 account fails and
leaves the account unchanged. -/
theorem claim_C4_witness :
    acct555.withdraw (Money.of 1556) (AccountId.mk 99) 7 = some (false, acct555) ∧
    acct555 = acct555 :=
  ⟨by decide,
   (claim_C4_withdraw_atomic acct555 (Money.of 1556) ⟨99⟩ 7 ⟨1⟩ rfl acct555 (by decide)).1⟩

/-- C6: `update_activities` saves exactly the activities of the account's
window whose id is `None` — one save per dirty activity, in window order —
and every activity with an assigned id is skipped (never re-inserted or
updated).  `List.mapM` over `Option` expresses "each dirty activity mapped
to a row, in order". -/
theorem claim_C6_update_activities (account : AccountImpl) :
    update_activities account =
      (account.activity_window.activities.filter (fun a => a.id.isNone)).mapM
        map_to_activity_entity := by
  unfold update_activities
  generalize account.activity_window.activities = l
  induction l with
  | nil => rfl
  | cons a rest ih =>
    cases ha : a.id with
    | none =>
      have hfil : (a :: rest).filter (fun x => x.id.isNone) =
          a :: rest.filter (fun x => x.id.isNone) := by
        simp [List.filter_cons, ha]
      rw [hfil, List.mapM_cons]
      have hsave : save_new_activities (a :: rest) =
          match map_to_activity_entity a with
          | none => none
          | some entity =>
            match save_new_activities rest with
            | none => none
            | some entities => some (entity :: entities) := by
        simp [save_new_activities, ha]
      rw [hsave, ih]
      cases map_to_activity_entity a <;>
        cases (rest.filter (fun x => x.id.isNone)).mapM map_to_activity_entity <;> simp
    | some aid =>
      have hfil : (a :: rest).filter (fun x => x.id.isNone) =
          rest.filter (fun x => x.id.isNone) := by
        simp [List.filter_cons, ha]
      rw [hfil]
      have hsave : save_new_activities (a :: rest) = save_new_activities rest := by
        simp [save_new_activities, ha]
      rw [hsave, ih]

/-- C7 (amended): all `Money` arithmetic is exact on the arbitrary-precision
amount, and `map_to_activity_entity` preserves the amount exactly when it
fits in the signed 64-bit range of the entity's `amount` column; outside
that range the `as i64` cast wraps (see the counterexample). -/
theorem claim_C7_exact_amounts (a b : Money) (activity : Activity)
    (h1 : -(2 ^ 63) ≤ activity.money.amount) (h2 : activity.money.amount < 2 ^ 63) :
    (Money.add a b).amount = a.amount + b.amount ∧
    (Money.substract a b).amount = a.amount - b.amount ∧
    (a.plus b).amount = a.amount + b.amount ∧
    (a.minus b).amount = a.amount - b.amount ∧
    a.negate.amount = -a.amount ∧
    ∃ e, map_to_activity_entity activity = some e ∧ e.amount = activity.money.amount := by
  refine ⟨rfl, rfl, rfl, rfl, rfl, ?_⟩
  have p1 : -(2 ^ 127) ≤ activity.money.amount := le_trans (by norm_num) h1
  have p2 : activity.money.amount < 2 ^ 127 := lt_of_lt_of_le h2 (by norm_num)
  refine ⟨{ id := activity.id.map (fun aid => aid.val)
            timestamp := activity.timestamp
            owner_account_id := activity.owner_account_id.val
            source_account_id := activity.source_account_id.val
            target_account_id := activity.target_account_id.val
            amount := wrap_to_i64 activity.money.amount }, ?_, ?_⟩
  · unfold map_to_activity_entity
    rw [if_pos ⟨p1, p2⟩]
  · show wrap_to_i64 activity.money.amount = activity.money.amount
    unfold wrap_to_i64
    have e1 : (2 : Int) ^ 63 = 9223372036854775808 := by norm_num
    have e2 : (2 : Int) ^ 64 = 18446744073709551616 := by norm_num
    rw [e1] at h1 h2
    rw [e1, e2]
    omega

/-- Witness for C7 at a 42-unit activity. -/
theorem claim_C7_witness :
    -(2 ^ 63) ≤ act_small.money.amount ∧ act_small.money.amount < 2 ^ 63 ∧
    ∃ e, map_to_activity_entity act_small = some e ∧ e.amount = act_small.money.amount :=
  ⟨by decide, by decide,
   (claim_C7_exact_amounts (Money.of 0) (Money.of 0) act_small (by decide) (by decide)).2.2.2.2.2⟩

/-- Counterexample to C7 as stated: mapping an activity whose amount is
`2 ^ 63` (just beyond the 64-bit signed range) to its persistence entity
silently wraps the amount to `-(2 ^ 63)`, so the exact amount is not
preserved. -/
theorem claim_C7_counterexample :
    act_big.money.amount = 2 ^ 63 ∧
    (map_to_activity_entity act_big).map (fun e => e.amount) = some (-(2 ^ 63)) ∧
    ((-(2 ^ 63) : Int) = 2 ^ 63 → False) := by
  refine ⟨by norm_num [act_big, Activity.new, Money.of], ?_, by norm_num⟩
  have p1 : -(2 ^ 127) ≤ act_big.money.amount := by norm_num [act_big, Activity.new, Money.of]
  have p2 : act_big.money.amount < 2 ^ 127 := by norm_num [act_big, Activity.new, Money.of]
  unfold map_to_activity_entity
  rw [if_pos ⟨p1, p2⟩]
  show some (wrap_to_i64 act_big.money.amount) = some (-(2 ^ 63))
  congr 1

/-- C10: for every use-case implementation and all three parsed integer path
parameters, the REST handler responds 200 — the boolean result of
`send_money` is discarded, so a business rejection is indistinguishable from
success at the HTTP interface. -/
theorem claim_C10_handler_always_200 (send_money_use_case : SendMoneyCommand → Bool)
    (other_use_case : SendMoneyCommand → Bool)
    (sourceAccountId targetAccountId amount : Int) :
    send_money_handler send_money_use_case sourceAccountId targetAccountId amount = 200 ∧
    send_money_handler send_money_use_case sourceAccountId targetAccountId amount =
      send_money_handler other_use_case sourceAccountId targetAccountId amount :=
  ⟨rfl, rfl⟩

/-- C8: when the command's money strictly exceeds the configured threshold,
`send_money` aborts fatally (panic, not a normal `false` return) before
invoking any port — in particular before loading any account; when the money
is at most the threshold, the check passes and the use case proceeds to load
the source account. -/
theorem claim_C8_threshold (load_account : AccountId → Timestamp → Option AccountImpl)
    (props : MoneyTransferProperties) (command : SendMoneyCommand) (now : Timestamp) :
    (command.money.is_greater_than props.maximum_transfer_threshold = true →
      SendMoneyUseCaseImpl.send_money load_account props command now = ([], none)) ∧
    (command.money.is_greater_than props.maximum_transfer_threshold = false →
      ∃ rest, (SendMoneyUseCaseImpl.send_money load_account props command now).1 =
        UseCaseEvent.load_account command.source_account_id (now - 10) :: rest) := by
  constructor
  · intro h
    simp [SendMoneyUseCaseImpl.send_money, check_threshold, h]
  · intro h
    have hc : check_threshold props command = false := h
    simp only [SendMoneyUseCaseImpl.send_money, hc, Bool.false_eq_true, if_false]
    repeat' split
    all_goals exact ⟨_, rfl⟩

/-- Witness for C8: with a threshold of 100, a 200-unit command aborts with
no port invocation at all, and a 50-unit command proceeds to the source
load. -/
theorem claim_C8_witness :
    SendMoneyUseCaseImpl.send_money lf_none props100 cmd_over 0 = ([], none) ∧
    ∃ rest, (SendMoneyUseCaseImpl.send_money lf_none props100 cmd_under 0).1 =
      UseCaseEvent.load_account cmd_under.source_account_id (0 - 10) :: rest :=
  ⟨(claim_C8_threshold lf_none props100 cmd_over 0).1 (by decide),
   (claim_C8_threshold lf_none props100 cmd_under 0).2 (by decide)⟩

/-- C5: when the source account's withdrawal fails (insufficient funds),
`send_money` returns `false`, and the full port trace is: the two loads,
then exactly one `lock_account` and one `release_account`, both on the
source account id — so the update port is never invoked (nothing is
persisted) and the target account is never locked or mutated (it is
returned exactly as loaded). -/
theorem claim_C5_insufficient_funds
    (load_account : AccountId → Timestamp → Option AccountImpl)
    (props : MoneyTransferProperties) (command : SendMoneyCommand) (now : Timestamp)
    (source_account target_account : AccountImpl) (s t : AccountId) (bal : Money)
    (hthr : command.money.is_greater_than props.maximum_transfer_threshold = false)
    (hls : load_account command.source_account_id (now - 10) = some source_account)
    (hlt : load_account command.target_account_id (now - 10) = some target_account)
    (hsid : source_account.id = some s)
    (htid : target_account.id = some t)
    (hbal : source_account.calculate_balance = some bal)
    (hinsuf : bal.amount - command.money.amount < 0) :
    SendMoneyUseCaseImpl.send_money load_account props command now =
      ([UseCaseEvent.load_account command.source_account_id (now - 10),
        UseCaseEvent.load_account command.target_account_id (now - 10),
        UseCaseEvent.lock_account s,
        UseCaseEvent.release_account s],
       some (false, source_account, target_account)) := by
  have hmw : source_account.may_withdraw command.money = some false := by
    simp only [AccountImpl.may_withdraw, hbal, Option.map_some']
    simp only [Money.add, Money.negate, Money.is_positive_or_zero, Option.some.injEq,
      decide_eq_false_iff_not]
    omega
  have hw : source_account.withdraw command.money t now = some (false, source_account) := by
    simp [AccountImpl.withdraw, hmw]
  have hc : check_threshold props command = false := hthr
  simp only [SendMoneyUseCaseImpl.send_money, hc, Bool.false_eq_true, if_false,
    hls, hlt, hsid, htid, hw]

/-- Witness for C5: transferring 50 out of an account holding 10 fails,
locking and releasing only the source. -/
theorem claim_C5_witness :
    SendMoneyUseCaseImpl.send_money lf5 props0 cmd5 0 =
      ([UseCaseEvent.load_account (AccountId.mk 1) (0 - 10),
        UseCaseEvent.load_account (AccountId.mk 2) (0 - 10),
        UseCaseEvent.lock_account (AccountId.mk 1),
        UseCaseEvent.release_account (AccountId.mk 1)],
       some (false, src5, tgt5)) :=
  claim_C5_insufficient_funds lf5 props0 cmd5 0 src5 tgt5 ⟨1⟩ ⟨2⟩ (Money.of 10)
    (by decide) rfl rfl rfl rfl (by decide) (by decide)

/-- C1 (amended with distinct account ids): whenever `send_money` returns
`true` for two loaded accounts with distinct set ids, the source account's
balance after the call is its pre-call balance minus the transferred money,
and the target account's balance is its pre-call balance plus the
transferred money. -/
theorem claim_C1_transfer_success
    (load_account : AccountId → Timestamp → Option AccountImpl)
    (props : MoneyTransferProperties) (command : SendMoneyCommand) (now : Timestamp)
    (source_account target_account : AccountImpl) (s t : AccountId)
    (balS balT : Money) (source_after target_after : AccountImpl)
    (hls : load_account command.source_account_id (now - 10) = some source_account)
    (hlt : load_account command.target_account_id (now - 10) = some target_account)
    (hsid : source_account.id = some s)
    (htid : target_account.id = some t)
    (hst : s ≠ t)
    (hbalS : source_account.calculate_balance = some balS)
    (hbalT : target_account.calculate_balance = some balT)
    (hres : (SendMoneyUseCaseImpl.send_money load_account props command now).2 =
      some (true, source_after, target_after)) :
    source_after.calculate_balance = some (Money.substract balS command.money) ∧
    target_after.calculate_balance = some (balT.plus command.money) := by
  -- The threshold check must have passed, or the outcome would be `none`.
  cases hc : check_threshold props command with
  | true =>
    simp [SendMoneyUseCaseImpl.send_money, hc] at hres
  | false =>
    simp only [SendMoneyUseCaseImpl.send_money, hc, Bool.false_eq_true, if_false,
      hls, hlt, hsid, htid] at hres
    -- The withdrawal must have succeeded, or the outcome would be `false`.
    have hmw : source_account.may_withdraw command.money =
        some ((Money.add balS command.money.negate).is_positive_or_zero) := by
      simp [AccountImpl.may_withdraw, hbalS]
    cases hb : (Money.add balS command.money.negate).is_positive_or_zero with
    | false =>
      rw [hb] at hmw
      have hw : source_account.withdraw command.money t now = some (false, source_account) := by
        simp [AccountImpl.withdraw, hmw]
      rw [hw] at hres
      simp at hres
    | true =>
      rw [hb] at hmw
      have hw : source_account.withdraw command.money t now =
          some (true, { source_account with activity_window :=
            source_account.activity_window.add_activity (Activity.new s s t now command.money) }) := by
        simp [AccountImpl.withdraw, hmw, hsid]
      have hd : target_account.deposit command.money s now =
          some (true, { target_account with activity_window :=
            target_account.activity_window.add_activity (Activity.new t s t now command.money) }) := by
        simp [AccountImpl.deposit, htid]
      rw [hw, hd] at hres
      simp only [Option.some.injEq, Prod.mk.injEq, true_and] at hres
      obtain ⟨hsa, hta⟩ := hres
      subst hsa; subst hta
      have hbS : Money.add source_account.baseline_balance
          (source_account.activity_window.calculate_balance s) = balS := by
        rw [AccountImpl.calculate_balance, hsid] at hbalS
        simpa using hbalS
      have hbT : Money.add target_account.baseline_balance
          (target_account.activity_window.calculate_balance t) = balT := by
        rw [AccountImpl.calculate_balance, htid] at hbalT
        simpa using hbalT
      constructor
      · rw [AccountImpl.calculate_balance]
        simp only [hsid, Option.map_some', Option.some.injEq]
        apply Money.ext_amount
        rw [money_add_amount, calculate_balance_add_activity]
        have hneq : ¬((Activity.new s s t now command.money).target_account_id = s) := by
          simp [Activity.new]
          exact fun hh => hst hh.symm
        have heq : (Activity.new s s t now command.money).source_account_id = s := rfl
        rw [if_neg hneq, if_pos heq]
        have := congrArg Money.amount hbS
        rw [money_add_amount] at this
        simp only [Money.substract, Activity.new]
        omega
      · rw [AccountImpl.calculate_balance]
        simp only [htid, Option.map_some', Option.some.injEq]
        apply Money.ext_amount
        rw [money_add_amount, calculate_balance_add_activity]
        have heq : (Activity.new t s t now command.money).target_account_id = t := rfl
        have hneq : ¬((Activity.new t s t now command.money).source_account_id = t) := by
          simp [Activity.new]
          exact fun hh => hst hh
        rw [if_pos heq, if_neg hneq]
        have := congrArg Money.amount hbT
        rw [money_add_amount] at this
        simp only [Money.plus, Activity.new]
        omega

/-- Witness for C1: transferring 50 between distinct accounts 1 (balance
100) and 2 (balance 0) succeeds and moves the balances to 50 and 50. -/
theorem claim_C1_witness :
    (SendMoneyUseCaseImpl.send_money lf1 props0 cmd1 9).2 =
      some (true, acct1_after, acct2_after) ∧
    acct1_after.calculate_balance = some (Money.substract (Money.of 100) (Money.of 50)) ∧
    acct2_after.calculate_balance = some ((Money.of 0).plus (Money.of 50)) := by
  have h := claim_C1_transfer_success lf1 props0 cmd1 9 acct1 acct2 ⟨1⟩ ⟨2⟩
    (Money.of 100) (Money.of 0) acct1_after acct2_after
    (by decide) (by decide) (by decide) (by decide) (by decide) (by decide) (by decide) (by decide)
  exact ⟨by decide, h.1, h.2⟩

/-- Counterexample to C1 as stated: a self-transfer (source id = target id =
1, both loaded with ids set, amount 50 well under the threshold) makes
`send_money` return `true`, yet the source account's balance after the call
is still 100 — not its pre-call balance minus the transferred 50.  The
claim must be restricted to pairs of accounts with distinct ids. -/
theorem claim_C1_counterexample :
    acct1.calculate_balance = some (Money.of 100) ∧
    cmdSelf.money.is_greater_than props0.maximum_transfer_threshold = false ∧
    (SendMoneyUseCaseImpl.send_money lf1 props0 cmdSelf 9).2 =
      some (true, acctSelf_after, acctSelf_after) ∧
    acctSelf_after.calculate_balance = some (Money.of 100) ∧
    Money.of 100 ≠ Money.substract (Money.of 100) (Money.of 50) :=
  ⟨by decide, by decide, by decide, by decide, by decide⟩

end Buckpal
